import Mathlib

/-!
Verification development for the upspin/aws repository.

The repository provides an S3 blob-storage adapter
(cloud/storage/s3/s3.go) behind the upspin storage interface, plus a
provisioning command (cmd/upspin-setupstorage-aws) with a best-effort
cleanup path. Below we shallowly embed the adapter and the cleanup
routine and prove the specification claims about them.

Modelling conventions:
- A byte sequence is a `List Nat`.
- The remote S3 container is an association list from refs to blobs
  (first match wins on lookup, so a fresh write is a cons in front).
- An error returned by the underlying AWS client is an `AwsErr`:
  its message text plus, when the error is an `awserr.RequestFailure`,
  the HTTP status code (`statusCode = some n`); a plain non-request
  error has `statusCode = none`.
- Each remote call may be given an injected fault (`Option AwsErr`);
  `none` means the underlying call succeeds with the semantics of the
  container map. Each adapter operation performs exactly one underlying
  call, so the fault parameter is a single optional value.
- A nil-pointer dereference (calling through a nil client handle) is
  the `panicked` outcome, distinct from every error return.
- Go methods have pointer receivers, so every adapter operation
  returns the (possibly updated) receiver alongside its result;
  only `Close` actually changes it.
-/

set_option autoImplicit false

namespace S3Spec

/-- A blob: an uninterpreted byte sequence. -/
abbrev Blob := List Nat

/-- The remote container: an association list from refs to blobs.
Lookup takes the first match, so insertion is cons. -/
abbrev Bucket := List (String × Blob)

/-- First-match lookup in the container. -/
def lookupA : Bucket → String → Option Blob
  | [], _ => none
  | (k, v) :: rest, r => if k = r then some v else lookupA rest r

/-- Remove every binding of a ref (the effect of a DeleteObject). -/
def removeA : Bucket → String → Bucket
  | [], _ => []
  | (k, v) :: rest, r =>
    if k = r then removeA rest r else (k, v) :: removeA rest r

/-- An error produced by the underlying AWS client. `statusCode` is
`some n` exactly when the Go error value is an `awserr.RequestFailure`
carrying HTTP status `n`; `none` models a non-request error (for
example a transport failure), on which a Go type assertion to
`awserr.RequestFailure` panics. -/
structure AwsErr where
  text : String
  statusCode : Option Nat
  deriving DecidableEq, Repr

/-- The three error kinds of upspin.io/errors used by this adapter:
`errors.Invalid`, `errors.NotExist` and `errors.IO`. -/
inductive ErrKind where
  | invalid
  | notExist
  | ioErr
  deriving DecidableEq, Repr

/-- An error built by `errors.E(op, kind, msg)`. -/
structure UpspinError where
  op : String
  kind : ErrKind
  msg : String
  deriving DecidableEq, Repr

/-- Outcome of running a Go function that may dereference nil:
either a runtime panic or a normal value. -/
inductive Outcome (α : Type) where
  | panicked
  | ok (val : α)
  deriving DecidableEq, Repr

/-- The connected S3 client handle (`*s3.S3`): for this adapter only
its resolved service endpoint is observable (through `LinkBase`). -/
structure Client where
  endpoint : String
  deriving DecidableEq, Repr

/-- The adapter (`s3Impl` in s3.go): client handle (nil-able pointer,
hence `Option`), bucket name, and default write ACL. -/
structure s3Impl where
  service : Option Client
  bucketName : String
  defaultWriteACL : String
  deriving DecidableEq, Repr

/-! ### Underlying SDK calls

`s3manager` download/upload and `s3.DeleteObject`, over the container
map, with an injected fault standing for any failure the client
returns. With no fault, download of an absent key is the service 404. -/

/-- Go `s3manager.Downloader.Download`: the full object bytes, or the
injected fault, or the service 404 when the key is absent. -/
def sdkDownload (objs : Bucket) (ref : String) (fault : Option AwsErr) :
    Except AwsErr Blob :=
  match fault with
  | some e => .error e
  | none =>
    match lookupA objs ref with
    | some b => .ok b
    | none => .error ⟨"NoSuchKey: The specified key does not exist.", some 404⟩

/-- Go `s3manager.Uploader.Upload`: overwrites the object at `ref`. -/
def sdkUpload (objs : Bucket) (ref : String) (contents : Blob)
    (fault : Option AwsErr) : Except AwsErr Bucket :=
  match fault with
  | some e => .error e
  | none => .ok ((ref, contents) :: objs)

/-- Go `s3.DeleteObject`: removes the object; deleting an absent key is a
no-op success at the service. -/
def sdkDelete (objs : Bucket) (ref : String) (fault : Option AwsErr) :
    Except AwsErr Bucket :=
  match fault with
  | some e => .error e
  | none => .ok (removeA objs ref)

/-! ### The adapter operations (s3.go lines 114-176) -/

/-- Go `LinkBase`: `s.service.Endpoint + "/" + s.bucketName + "/"` with a
nil error; dereferences the client handle, so a nil handle panics. -/
def LinkBase (s : s3Impl) : s3Impl × Outcome (String × Option UpspinError) :=
  match s.service with
  | none => (s, .panicked)
  | some c => (s, .ok (c.endpoint ++ "/" ++ s.bucketName ++ "/", none))

/-- Go `Download`: one underlying download; a `RequestFailure` with
status 404 becomes `errors.NotExist` wrapping the underlying error,
any other failure becomes `errors.IO` with ref/bucket context. -/
def Download (s : s3Impl) (objs : Bucket) (fault : Option AwsErr)
    (ref : String) : s3Impl × Outcome (Except UpspinError Blob) :=
  match s.service with
  | none => (s, .panicked)
  | some _ =>
    match sdkDownload objs ref fault with
    | .ok bs => (s, .ok (.ok bs))
    | .error e =>
      if e.statusCode = some 404 then
        (s, .ok (.error ⟨"cloud/storage/amazons3.Download", .notExist, e.text⟩))
      else
        (s, .ok (.error ⟨"cloud/storage/amazons3.Download", .ioErr,
          "unable to download ref \"" ++ ref ++ "\" from bucket \"" ++
            s.bucketName ++ "\": " ++ e.text⟩))

/-- Go `Put`: one underlying managed upload tagged with the default ACL;
any failure becomes `errors.IO` with ref/bucket context. Returns the
container state alongside the Go error result. -/
def Put (s : s3Impl) (objs : Bucket) (fault : Option AwsErr)
    (ref : String) (contents : Blob) :
    s3Impl × Outcome (Except UpspinError Unit × Bucket) :=
  match s.service with
  | none => (s, .panicked)
  | some _ =>
    match sdkUpload objs ref contents fault with
    | .ok objs2 => (s, .ok (.ok (), objs2))
    | .error e =>
      (s, .ok (.error ⟨"cloud/storage/amazons3.Put", .ioErr,
        "unable to upload ref \"" ++ ref ++ "\" to bucket \"" ++
          s.bucketName ++ "\": " ++ e.text⟩, objs))

/-- Go `Delete`: one underlying DeleteObject; any failure becomes
`errors.IO` with ref/bucket context (the status code is never
inspected, so no failure is classified NotExist). -/
def Delete (s : s3Impl) (objs : Bucket) (fault : Option AwsErr)
    (ref : String) :
    s3Impl × Outcome (Except UpspinError Unit × Bucket) :=
  match s.service with
  | none => (s, .panicked)
  | some _ =>
    match sdkDelete objs ref fault with
    | .ok objs2 => (s, .ok (.ok (), objs2))
    | .error e =>
      (s, .ok (.error ⟨"cloud/storage/amazons3.Delete", .ioErr,
        "unable to delete ref \"" ++ ref ++ "\" from bucket \"" ++
          s.bucketName ++ "\": " ++ e.text⟩, objs))

/-- Go `Close`: sets the client handle to nil and the bucket name to the
empty string; the ACL field is untouched. Pure state update, no
remote interaction. -/
def Close (s : s3Impl) : s3Impl :=
  { s with service := none, bucketName := "" }

/-! ### Construction (s3.go lines 36-108) -/

/-- Option keys of s3.go. -/
def regionName : String := "s3Region"

/-- Option key for the bucket name. -/
def bucketNameKey : String := "s3BucketName"

/-- Option key for the default ACL. -/
def defaultACLKey : String := "defaultACL"

/-- Option key for the optional endpoint override. -/
def endpointURLKey : String := "endpoint"

/-- Option key for the path-style flag. -/
def pathstyleKey : String := "pathstyle"

/-- Go `ACLPublicRead` constant of s3.go. -/
def ACLPublicRead : String := "public-read"

/-- Go `ACLPrivate` constant of s3.go. -/
def ACLPrivate : String := "private"

/-- The flat string option map (`storage.Opts.Opts`); modelled as an
association list with first-match lookup. -/
abbrev Opts := List (String × String)

/-- Map lookup on the option bag. -/
def lookupOpt : Opts → String → Option String
  | [], _ => none
  | (k, v) :: rest, key => if k = key then some v else lookupOpt rest key

/-- Go `unicode.IsSpace` restricted to the code points Go lists
explicitly (Latin-1 range); sufficient for the option strings here. -/
def goIsSpace (c : Char) : Bool :=
  c == ' ' || c == '\t' || c == '\n' || c == '\x0b' || c == '\x0c' ||
    c == '\r' || c == '\u0085' || c == '\u00A0'

/-- Go `strings.TrimSpace`: drop leading and trailing whitespace. -/
def trimSpace (str : String) : String :=
  ⟨((str.data.dropWhile goIsSpace).reverse.dropWhile goIsSpace).reverse⟩

/-- Visible effects of `New`: establishing the AWS session (which is
also where ambient-credential resolution happens). Validation code
emits no effect at all. -/
inductive Effect where
  | sessionEstablish
  deriving DecidableEq, Repr

/-- Go `New` (s3.go lines 54-104). Parameters standing for the ambient
environment: `sessFail` is `some msg` when
`session.NewSessionWithOptions` fails with that message, and
`resolvedEndpoint` is the service endpoint the SDK resolves for the
configured region/endpoint override (external to this code). Returns
the list of effects performed alongside the result. The option checks
run in source order: region, bucket, ACL presence, pathstyle presence,
pathstyle value (after `strings.TrimSpace`), ACL enumeration; the
session is established only after all validation passes. -/
def New (sessFail : Option String) (resolvedEndpoint : String)
    (opts : Opts) : List Effect × Except UpspinError s3Impl :=
  match lookupOpt opts regionName with
  | none => ([], .error ⟨"cloud/storage/amazons3.New", .invalid,
      "\"s3Region\" option is required"⟩)
  | some _region =>
    match lookupOpt opts bucketNameKey with
    | none => ([], .error ⟨"cloud/storage/amazons3.New", .invalid,
        "\"s3BucketName\" option is required"⟩)
    | some bucket =>
      match lookupOpt opts defaultACLKey with
      | none => ([], .error ⟨"cloud/storage/amazons3.New", .invalid,
          "\"defaultACL\" option is required"⟩)
      | some acl =>
        match lookupOpt opts pathstyleKey with
        | none => ([], .error ⟨"cloud/storage/amazons3.New", .invalid,
            "\"pathstyle\" option is required"⟩)
        | some shouldPathstyle =>
          if trimSpace shouldPathstyle = "true" ∨
              trimSpace shouldPathstyle = "false" then
            if acl ≠ ACLPrivate ∧ acl ≠ ACLPublicRead then
              ([], .error ⟨"cloud/storage/amazons3.New", .invalid,
                "valid ACL values for S3 are private and public-read"⟩)
            else
              match sessFail with
              | some msg => ([.sessionEstablish],
                  .error ⟨"cloud/storage/amazons3.New", .ioErr,
                    "unable to create Amazon session: " ++ msg⟩)
              | none => ([.sessionEstablish],
                  .ok ⟨some ⟨resolvedEndpoint⟩, bucket, acl⟩)
          else
            ([], .error ⟨"cloud/storage/amazons3.New", .invalid,
              "\"pathstyle\" must be true or false"⟩)

/-- Whether a construction result is an Invalid-configuration error. -/
def isInvalidRes : Except UpspinError s3Impl → Bool
  | .error e => e.kind == .invalid
  | .ok _ => false

/-- Spec-side predicate: one of the four required options is absent. -/
def requiredMissing (opts : Opts) : Bool :=
  (lookupOpt opts regionName).isNone || (lookupOpt opts bucketNameKey).isNone ||
    (lookupOpt opts defaultACLKey).isNone || (lookupOpt opts pathstyleKey).isNone

/-- Spec-side predicate, the claim as stated: the pathstyle flag
string is neither the literal "true" nor the literal "false". -/
def pathstyleNotLiteral (opts : Opts) : Bool :=
  match lookupOpt opts pathstyleKey with
  | none => false
  | some v => !(v == "true") && !(v == "false")

/-- Spec-side predicate, amended: the pathstyle flag string is, after
whitespace trimming, neither "true" nor "false". -/
def pathstyleNotBool (opts : Opts) : Bool :=
  match lookupOpt opts pathstyleKey with
  | none => false
  | some v => !(trimSpace v == "true") && !(trimSpace v == "false")

/-- Spec-side predicate: the ACL value is outside the closed
enumeration. -/
def aclOutsideEnum (opts : Opts) : Bool :=
  match lookupOpt opts defaultACLKey with
  | none => false
  | some v => !(v == ACLPrivate) && !(v == ACLPublicRead)

/-! ### Call sequences against a constructed adapter

A caller-visible call: each constructor carries the injected fault of
its single underlying remote request. Running a call threads the
receiver (faithful to pointer-receiver methods) and the container. -/

/-- One adapter call in a sequence. -/
inductive Call where
  | putC (fault : Option AwsErr) (ref : String) (data : Blob)
  | downloadC (fault : Option AwsErr) (ref : String)
  | deleteC (fault : Option AwsErr) (ref : String)
  | linkBaseC
  deriving DecidableEq, Repr

/-- Execute one call on (adapter, container); a failed or panicking
call leaves the container as it was. -/
def applyCall (st : s3Impl × Bucket) : Call → s3Impl × Bucket
  | .putC f r d =>
    match Put st.1 st.2 f r d with
    | (s2, .panicked) => (s2, st.2)
    | (s2, .ok (_, objs2)) => (s2, objs2)
  | .downloadC f r => ((Download st.1 st.2 f r).1, st.2)
  | .deleteC f r =>
    match Delete st.1 st.2 f r with
    | (s2, .panicked) => (s2, st.2)
    | (s2, .ok (_, objs2)) => (s2, objs2)
  | .linkBaseC => ((LinkBase st.1).1, st.2)

/-- Execute a sequence of calls. -/
def runCalls (st : s3Impl × Bucket) (calls : List Call) : s3Impl × Bucket :=
  calls.foldl applyCall st

/-- Whether a call is a Put or Delete on the given ref. -/
def touchesRef (c : Call) (r : String) : Bool :=
  match c with
  | .putC _ r2 _ => r2 == r
  | .deleteC _ r2 => r2 == r
  | _ => false

/-! ### Helper lemmas -/

/-- Go `Put` never writes the receiver. -/
theorem Put_fst (s : s3Impl) (objs : Bucket) (fault : Option AwsErr)
    (ref : String) (contents : Blob) :
    (Put s objs fault ref contents).1 = s := by
  unfold Put
  rcases s.service with _ | c
  · rfl
  · rcases sdkUpload objs ref contents fault with e | objs2 <;> rfl

/-- Go `Download` never writes the receiver. -/
theorem Download_fst (s : s3Impl) (objs : Bucket) (fault : Option AwsErr)
    (ref : String) : (Download s objs fault ref).1 = s := by
  unfold Download
  rcases s.service with _ | c
  · rfl
  · rcases sdkDownload objs ref fault with e | bs
    · by_cases h : e.statusCode = some 404 <;> simp [h]
    · rfl

/-- Go `Delete` never writes the receiver. -/
theorem Delete_fst (s : s3Impl) (objs : Bucket) (fault : Option AwsErr)
    (ref : String) : (Delete s objs fault ref).1 = s := by
  unfold Delete
  rcases s.service with _ | c
  · rfl
  · rcases sdkDelete objs ref fault with e | objs2 <;> rfl

/-- Go `LinkBase` never writes the receiver. -/
theorem LinkBase_fst (s : s3Impl) : (LinkBase s).1 = s := by
  unfold LinkBase
  rcases s.service with _ | c <;> rfl

/-- No single call writes any adapter field. -/
theorem applyCall_fst (st : s3Impl × Bucket) (c : Call) :
    (applyCall st c).1 = st.1 := by
  rcases c with ⟨f, r, d⟩ | ⟨f, r⟩ | ⟨f, r⟩ | _
  · have h := Put_fst st.1 st.2 f r d
    unfold applyCall
    rcases hp : Put st.1 st.2 f r d with ⟨s2, res⟩
    rcases res with _ | ⟨_, objs2⟩ <;> simpa [hp] using h
  · simpa [applyCall] using Download_fst st.1 st.2 f r
  · have h := Delete_fst st.1 st.2 f r
    unfold applyCall
    rcases hp : Delete st.1 st.2 f r with ⟨s2, res⟩
    rcases res with _ | ⟨_, objs2⟩ <;> simpa [hp] using h
  · simpa [applyCall] using LinkBase_fst st.1

/-- No call sequence writes any adapter field. -/
theorem runCalls_fst (st : s3Impl × Bucket) (calls : List Call) :
    (runCalls st calls).1 = st.1 := by
  induction calls generalizing st with
  | nil => rfl
  | cons c rest ih =>
    have h := applyCall_fst st c
    simpa [runCalls, List.foldl_cons, h]
      using (ih (applyCall st c)).trans h

/-- Lookup passes over a binding with a different key. -/
theorem lookupA_cons_ne (o : Bucket) (k r : String) (v : Blob)
    (h : k ≠ r) : lookupA ((k, v) :: o) r = lookupA o r := by
  simp [lookupA, h]

/-- Removing one ref leaves lookups of other refs unchanged. -/
theorem lookupA_removeA_ne (o : Bucket) (k r : String) (h : k ≠ r) :
    lookupA (removeA o k) r = lookupA o r := by
  induction o with
  | nil => rfl
  | cons p rest ih =>
    rcases p with ⟨k2, v2⟩
    by_cases h2 : k2 = k
    · subst h2
      simp [removeA, lookupA, h, ih]
    · by_cases h3 : k2 = r <;> simp [removeA, lookupA, h2, h3, ih, Ne.symm h]

/-- After removal, the ref is absent. -/
theorem lookupA_removeA_self (o : Bucket) (r : String) :
    lookupA (removeA o r) r = none := by
  induction o with
  | nil => rfl
  | cons p rest ih =>
    rcases p with ⟨k, v⟩
    by_cases h : k = r <;> simp [removeA, lookupA, h, ih]

/-- Removing an absent ref is the identity on the container. -/
theorem removeA_absent (o : Bucket) (r : String)
    (h : lookupA o r = none) : removeA o r = o := by
  induction o with
  | nil => rfl
  | cons p rest ih =>
    rcases p with ⟨k, v⟩
    by_cases h2 : k = r
    · simp [lookupA, h2] at h
    · simp [lookupA, h2] at h
      simp [removeA, h2, ih h]

/-- A call that is not a Put or Delete on `r` leaves the blob at `r`
unchanged. -/
theorem applyCall_lookup (st : s3Impl × Bucket) (c : Call) (r : String)
    (h : touchesRef c r = false) :
    lookupA (applyCall st c).2 r = lookupA st.2 r := by
  rcases c with ⟨f, r2, d⟩ | ⟨f, r2⟩ | ⟨f, r2⟩ | _
  · have hne : r2 ≠ r := by simpa [touchesRef] using h
    unfold applyCall
    rcases hs : st.1.service with _ | cl
    · simp [Put, hs]
    · rcases f with _ | e
      · simp [Put, hs, sdkUpload, lookupA_cons_ne _ _ _ _ hne]
      · simp [Put, hs, sdkUpload]
  · rfl
  · have hne : r2 ≠ r := by simpa [touchesRef] using h
    unfold applyCall
    rcases hs : st.1.service with _ | cl
    · simp [Delete, hs]
    · rcases f with _ | e
      · simp [Delete, hs, sdkDelete, lookupA_removeA_ne _ _ _ hne]
      · simp [Delete, hs, sdkDelete]
  · rfl

/-- A sequence of calls none of which Puts or Deletes `r` leaves the
blob at `r` unchanged. -/
theorem runCalls_lookup (st : s3Impl × Bucket) (calls : List Call)
    (r : String) (h : ∀ cl ∈ calls, touchesRef cl r = false) :
    lookupA (runCalls st calls).2 r = lookupA st.2 r := by
  induction calls generalizing st with
  | nil => rfl
  | cons c rest ih =>
    have h1 := applyCall_lookup st c r (h c (by simp))
    have h2 := ih (applyCall st c) (fun cl hcl => h cl (by simp [hcl]))
    simpa [runCalls, List.foldl_cons] using h2.trans h1

end S3Spec

namespace S3Spec

/-! ### Claim C5: LinkBase -/

/-- C5: for every constructed adapter (non-nil client handle),
`LinkBase` returns, with a nil error, exactly the client endpoint,
a separator, the bucket name and a trailing separator; it is a pure
function of the adapter fields (it takes no container, no fault) and
leaves the receiver unchanged. -/
theorem C5_linkBase (c : Client) (b acl : String) :
    LinkBase ⟨some c, b, acl⟩ =
      (⟨some c, b, acl⟩, .ok (c.endpoint ++ "/" ++ b ++ "/", none)) := by
  rfl

/-! ### Claim C6: Close -/

/-- C6: `Close` sets the client handle to nil and the bucket-name
field to the empty string, and it is idempotent: a second `Close`
leaves the state exactly as after the first. It is a pure state
update with no remote interaction. -/
theorem C6_close (s : s3Impl) :
    (Close s).service = none ∧ (Close s).bucketName = "" ∧
      Close (Close s) = Close s := by
  refine ⟨rfl, rfl, ?_⟩
  simp [Close]

/-! ### Claim C10: operations after Close panic -/

/-- C10: after `Close`, every operation (`LinkBase`, `Put`,
`Download`, `Delete`) reaches the nil-handle dereference: there is no
disposed-adapter guard, so each call on the closed adapter yields the
panic outcome rather than an Invalid or IO error. -/
theorem C10_use_after_close (s : s3Impl) (objs : Bucket)
    (fault : Option AwsErr) (ref : String) (contents : Blob) :
    (LinkBase (Close s)).2 = .panicked ∧
    (Download (Close s) objs fault ref).2 = .panicked ∧
    (Put (Close s) objs fault ref contents).2 = .panicked ∧
    (Delete (Close s) objs fault ref).2 = .panicked := by
  refine ⟨rfl, rfl, rfl, rfl⟩

/-! ### Claim C3: validation in New -/

/-- C3 counterexample: with every required option present and the
pathstyle value `" true"` — which is neither the literal `"true"` nor
the literal `"false"`, so the claim as stated demands an Invalid
failure — `New` nonetheless succeeds, because the code compares the
flag only after `strings.TrimSpace`. -/
theorem C3_counterexample :
    pathstyleNotLiteral
        [(regionName, "us-east-1"), (bucketNameKey, "b"),
          (defaultACLKey, "private"), (pathstyleKey, " true")] = true ∧
      isInvalidRes (New none "ep"
        [(regionName, "us-east-1"), (bucketNameKey, "b"),
          (defaultACLKey, "private"), (pathstyleKey, " true")]).2 = false ∧
      (New none "ep"
        [(regionName, "us-east-1"), (bucketNameKey, "b"),
          (defaultACLKey, "private"), (pathstyleKey, " true")]).2 =
        .ok ⟨some ⟨"ep"⟩, "b", "private"⟩ := by
  refine ⟨by decide, by decide, by rfl⟩

/-- C3 (amended): `New` fails with an Invalid-configuration error
exactly when one of the four required options is absent, or the
pathstyle flag — after whitespace trimming — is neither "true" nor
"false", or the ACL value is outside the enumeration; and every
Invalid failure happens before the session is established (empty
effect list, hence before any network interaction). -/
theorem C3_new_validation (sessFail : Option String)
    (resolvedEndpoint : String) (opts : Opts) :
    (isInvalidRes (New sessFail resolvedEndpoint opts).2 = true ↔
      (requiredMissing opts || pathstyleNotBool opts ||
        aclOutsideEnum opts) = true) ∧
    (isInvalidRes (New sessFail resolvedEndpoint opts).2 = true →
      (New sessFail resolvedEndpoint opts).1 = []) := by
  rcases hr : lookupOpt opts regionName with _ | region <;>
    rcases hb : lookupOpt opts bucketNameKey with _ | bucket <;>
      rcases ha : lookupOpt opts defaultACLKey with _ | acl <;>
        rcases hp : lookupOpt opts pathstyleKey with _ | ps <;>
          simp [New, isInvalidRes, requiredMissing, pathstyleNotBool,
            aclOutsideEnum, hr, hb, ha, hp]
  by_cases ht : trimSpace ps = "true" <;>
    by_cases hf : trimSpace ps = "false" <;>
      by_cases hpriv : acl = ACLPrivate <;>
        by_cases hpub : acl = ACLPublicRead <;>
          rcases sessFail with _ | msg <;>
            simp [ht, hf, hpriv, hpub, isInvalidRes]

/-- C3 witness: a concrete option bag missing the pathstyle key is
rejected as Invalid with no effect performed. -/
theorem C3_new_validation_witness :
    isInvalidRes (New none "ep"
        [(regionName, "r"), (bucketNameKey, "b"),
          (defaultACLKey, "private")]).2 = true ∧
      (New none "ep"
        [(regionName, "r"), (bucketNameKey, "b"),
          (defaultACLKey, "private")]).1 = [] := by
  have h := C3_new_validation none "ep"
    [(regionName, "r"), (bucketNameKey, "b"), (defaultACLKey, "private")]
  have h1 : isInvalidRes (New none "ep"
      [(regionName, "r"), (bucketNameKey, "b"),
        (defaultACLKey, "private")]).2 = true := h.1.mpr (by decide)
  exact ⟨h1, h.2 h1⟩

/-! ### Claim C9: the store configuration written by the provisioning command -/

/-- The store configuration written by the provisioning command
(cmd/upspin-setupstorage-aws main.go lines 132-137), as key/value
pairs; each entry is serialized as the string `key ++ "=" ++ value`. -/
def storeConfig (bucket region : String) : List (String × String) :=
  [("backend", "S3"), ("defaultACL", "public-read"),
    ("s3BucketName", bucket), ("s3Region", region)]

/-- The exact lines written into the server configuration file. -/
def storeConfigLines (bucket region : String) : List String :=
  (storeConfig bucket region).map (fun p => p.1 ++ "=" ++ p.2)

/-- Modelled from the spec: the surrounding server (upspin.io code,
outside this repository) parses each `key=value` line of the store
configuration back into the flat string option map handed to the
registered constructor, so the option bag reaching `New` is exactly
the key/value pairs of `storeConfig`. -/
def storeConfigOpts (bucket region : String) : Opts :=
  storeConfig bucket region

/-- C9: the provisioning command writes exactly the four entries
backend=S3, defaultACL=public-read, s3BucketName=..., s3Region=...;
the resulting option bag has no pathstyle key, and `New` rejects it
with an Invalid-configuration error for every bucket, region and
ambient environment. -/
theorem C9_provisioned_config_rejected (bucket region : String)
    (sessFail : Option String) (resolvedEndpoint : String) :
    storeConfigLines bucket region =
      ["backend=S3", "defaultACL=public-read",
        "s3BucketName=" ++ bucket, "s3Region=" ++ region] ∧
    lookupOpt (storeConfigOpts bucket region) pathstyleKey = none ∧
    isInvalidRes
      (New sessFail resolvedEndpoint (storeConfigOpts bucket region)).2 =
      true := by
  refine ⟨rfl, rfl, ?_⟩
  simp [New, storeConfigOpts, storeConfig, lookupOpt, regionName,
    bucketNameKey, defaultACLKey, pathstyleKey, isInvalidRes]

/-! ### Claim C1: last-write-wins round trip -/

/-- C1: on a constructed adapter, a successful `Put(r, b)` makes the
container bind `r` to `b`; `Download(r)` then returns exactly `b`
after any sequence of calls that contains no Put or Delete on `r`
(including the empty blob case, since `b` is arbitrary); and after
`Put(r, b1)` then `Put(r, b2)` — whose successive containers the first
conjunct determines — `Download(r)` returns `b2`, and never `b1` when
the two blobs differ. -/
theorem C1_put_download (s : s3Impl) (c : Client) (objs : Bucket)
    (r : String) (b b1 b2 : Blob) (calls : List Call)
    (hs : s.service = some c)
    (hc : ∀ cl ∈ calls, touchesRef cl r = false) :
    Put s objs none r b = (s, .ok (.ok (), (r, b) :: objs)) ∧
    (Download s (runCalls (s, (r, b) :: objs) calls).2 none r).2 =
      .ok (.ok b) ∧
    (Download s ((r, b2) :: (r, b1) :: objs) none r).2 = .ok (.ok b2) ∧
    (b1 ≠ b2 →
      (Download s ((r, b2) :: (r, b1) :: objs) none r).2 ≠
        .ok (.ok b1)) := by
  have hput : Put s objs none r b = (s, .ok (.ok (), (r, b) :: objs)) := by
    simp [Put, hs, sdkUpload]
  have hl : lookupA (runCalls (s, (r, b) :: objs) calls).2 r = some b := by
    rw [runCalls_lookup _ _ _ hc]
    simp [lookupA]
  have hdl : (Download s (runCalls (s, (r, b) :: objs) calls).2 none r).2 =
      .ok (.ok b) := by
    simp [Download, hs, sdkDownload, hl]
  have hov : (Download s ((r, b2) :: (r, b1) :: objs) none r).2 =
      .ok (.ok b2) := by
    simp [Download, hs, sdkDownload, lookupA]
  refine ⟨hput, hdl, hov, fun hne heq => hne ?_⟩
  rw [hov] at heq
  have : Except.ok (ε := UpspinError) b2 = Except.ok b1 :=
    (Outcome.ok.injEq _ _).mp heq
  simpa using this.symm

/-- C1 witness: concrete adapter, empty container, one intervening
call on another ref; the blob round-trips and the overwrite returns
the second blob. -/
theorem C1_put_download_witness :
    Put ⟨some ⟨"ep"⟩, "bkt", "private"⟩ [] none "r" [1, 2] =
      (⟨some ⟨"ep"⟩, "bkt", "private"⟩,
        .ok (.ok (), [("r", [1, 2])])) ∧
    (Download ⟨some ⟨"ep"⟩, "bkt", "private"⟩
        (runCalls (⟨some ⟨"ep"⟩, "bkt", "private"⟩, [("r", [1, 2])])
          [.putC none "other" [9]]).2 none "r").2 =
      .ok (.ok [1, 2]) ∧
    (Download ⟨some ⟨"ep"⟩, "bkt", "private"⟩
        [("r", [5]), ("r", [4]), ("r", [1, 2])] none "r").2 =
      .ok (.ok [5]) ∧
    ([4] ≠ ([5] : Blob) →
      (Download ⟨some ⟨"ep"⟩, "bkt", "private"⟩
          [("r", [5]), ("r", [4]), ("r", [1, 2])] none "r").2 ≠
        .ok (.ok [4])) := by
  have h := C1_put_download ⟨some ⟨"ep"⟩, "bkt", "private"⟩ ⟨"ep"⟩
    [("r", [1, 2])] "r" [1, 2] [4] [5] [.putC none "other" [9]]
    rfl (by decide)
  have h0 : Put ⟨some ⟨"ep"⟩, "bkt", "private"⟩ [] none "r" [1, 2] =
      (⟨some ⟨"ep"⟩, "bkt", "private"⟩, .ok (.ok (), [("r", [1, 2])])) := by
    rfl
  exact ⟨h0, h.2.1, h.2.2.1, h.2.2.2⟩

/-! ### Claim C2: error classification -/

/-- The upspin error kind carried by a download result, when the
result is an error return. -/
def downloadErrKind : Outcome (Except UpspinError Blob) → Option ErrKind
  | .ok (.error e) => some e.kind
  | _ => none

/-- C2: on a constructed adapter, every failure of the underlying
client is classified once and returned at once: `Download` yields a
NotFound (NotExist) error exactly when the underlying error carries
the HTTP 404 status signal (then wrapping the underlying text), and
every other failure — of Download, Put or Delete — is an IO error
whose message carries the underlying error text together with the ref
and the bucket name. -/
theorem C2_error_classification (s : s3Impl) (c : Client) (objs : Bucket)
    (r : String) (d : Blob) (e : AwsErr) (hs : s.service = some c) :
    (downloadErrKind (Download s objs (some e) r).2 = some .notExist ↔
      e.statusCode = some 404) ∧
    (e.statusCode = some 404 →
      (Download s objs (some e) r).2 =
        .ok (.error ⟨"cloud/storage/amazons3.Download", .notExist, e.text⟩)) ∧
    (e.statusCode ≠ some 404 →
      (Download s objs (some e) r).2 =
        .ok (.error ⟨"cloud/storage/amazons3.Download", .ioErr,
          "unable to download ref \"" ++ r ++ "\" from bucket \"" ++
            s.bucketName ++ "\": " ++ e.text⟩)) ∧
    (Put s objs (some e) r d).2 =
      .ok (.error ⟨"cloud/storage/amazons3.Put", .ioErr,
        "unable to upload ref \"" ++ r ++ "\" to bucket \"" ++
          s.bucketName ++ "\": " ++ e.text⟩, objs) ∧
    (Delete s objs (some e) r).2 =
      .ok (.error ⟨"cloud/storage/amazons3.Delete", .ioErr,
        "unable to delete ref \"" ++ r ++ "\" from bucket \"" ++
          s.bucketName ++ "\": " ++ e.text⟩, objs) := by
  by_cases h404 : e.statusCode = some 404
  · refine ⟨?_, fun _ => ?_, fun hne => absurd h404 hne, ?_, ?_⟩ <;>
      simp [Download, Put, Delete, sdkDownload, sdkUpload, sdkDelete,
        hs, h404, downloadErrKind]
  · refine ⟨?_, fun heq => absurd heq h404, fun _ => ?_, ?_, ?_⟩ <;>
      simp [Download, Put, Delete, sdkDownload, sdkUpload, sdkDelete,
        hs, h404, downloadErrKind]

/-- C2 witness: a 404 request failure becomes NotExist; flipping the
status away from 404 is exercised through the iff. -/
theorem C2_error_classification_witness :
    (downloadErrKind (Download ⟨some ⟨"ep"⟩, "bkt", "private"⟩ []
        (some ⟨"boom", some 404⟩) "r").2 = some .notExist) ∧
    (downloadErrKind (Download ⟨some ⟨"ep"⟩, "bkt", "private"⟩ []
        (some ⟨"boom", some 500⟩) "r").2 ≠ some .notExist) := by
  have h1 := C2_error_classification ⟨some ⟨"ep"⟩, "bkt", "private"⟩
    ⟨"ep"⟩ [] "r" [] ⟨"boom", some 404⟩ rfl
  have h2 := C2_error_classification ⟨some ⟨"ep"⟩, "bkt", "private"⟩
    ⟨"ep"⟩ [] "r" [] ⟨"boom", some 500⟩ rfl
  refine ⟨h1.1.mpr rfl, fun hc => ?_⟩
  have := h2.1.mp hc
  simp at this

/-! ### Claim C4: Delete semantics -/

/-- C4: on a constructed adapter, `Delete` of a never-written ref
succeeds and leaves the container unchanged; a successful `Delete`
removes the ref, after which `Download` of that ref fails with a
NotFound (NotExist) error; and every failure of `Delete` is an IO
error — never NotFound — whatever status code the underlying error
carries. -/
theorem C4_delete_semantics (s : s3Impl) (c : Client) (objs : Bucket)
    (r : String) (e : AwsErr) (hs : s.service = some c) :
    (lookupA objs r = none →
      Delete s objs none r = (s, .ok (.ok (), objs))) ∧
    Delete s objs none r = (s, .ok (.ok (), removeA objs r)) ∧
    (Download s (removeA objs r) none r).2 =
      .ok (.error ⟨"cloud/storage/amazons3.Download", .notExist,
        "NoSuchKey: The specified key does not exist."⟩) ∧
    (Delete s objs (some e) r).2 =
      .ok (.error ⟨"cloud/storage/amazons3.Delete", .ioErr,
        "unable to delete ref \"" ++ r ++ "\" from bucket \"" ++
          s.bucketName ++ "\": " ++ e.text⟩, objs) := by
  have hdel : Delete s objs none r = (s, .ok (.ok (), removeA objs r)) := by
    simp [Delete, hs, sdkDelete]
  refine ⟨fun habs => ?_, hdel, ?_, ?_⟩
  · rw [hdel, removeA_absent objs r habs]
  · simp [Download, hs, sdkDownload, lookupA_removeA_self]
  · simp [Delete, hs, sdkDelete]

/-- C4 witness: deleting an absent ref on an empty container
succeeds; downloading after deletion is NotFound; an injected
failure (even one with a 404 status) comes back as an IO error. -/
theorem C4_delete_semantics_witness :
    Delete ⟨some ⟨"ep"⟩, "bkt", "private"⟩ [] none "r" =
      (⟨some ⟨"ep"⟩, "bkt", "private"⟩, .ok (.ok (), [])) ∧
    (Download ⟨some ⟨"ep"⟩, "bkt", "private"⟩
        (removeA [("r", [1])] "r") none "r").2 =
      .ok (.error ⟨"cloud/storage/amazons3.Download", .notExist,
        "NoSuchKey: The specified key does not exist."⟩) ∧
    (Delete ⟨some ⟨"ep"⟩, "bkt", "private"⟩ [] (some ⟨"gone", some 404⟩)
        "r").2 =
      .ok (.error ⟨"cloud/storage/amazons3.Delete", .ioErr,
        "unable to delete ref \"r\" from bucket \"bkt\": gone"⟩, []) := by
  have h1 := C4_delete_semantics ⟨some ⟨"ep"⟩, "bkt", "private"⟩ ⟨"ep"⟩
    [] "r" ⟨"gone", some 404⟩ rfl
  have h2 := C4_delete_semantics ⟨some ⟨"ep"⟩, "bkt", "private"⟩ ⟨"ep"⟩
    [("r", [1])] "r" ⟨"gone", some 404⟩ rfl
  exact ⟨h1.1 rfl, h2.2.2.1, h1.2.2.2⟩

/-! ### Claim C7: only Close mutates the adapter -/

/-- C7: over every sequence of Put, Download, Delete and LinkBase
calls with any faults, the three adapter fields are exactly as
constructed — no operation other than construction and `Close` writes
a field. -/
theorem C7_fields_immutable (s : s3Impl) (objs : Bucket)
    (calls : List Call) :
    (runCalls (s, objs) calls).1 = s :=
  runCalls_fst (s, objs) calls

end S3Spec

namespace Setupstorage

open S3Spec (AwsErr)

/-! ### The provisioning cleanup (cmd/upspin-setupstorage-aws,
`clean`, main.go lines 208-255)

Five teardown steps run in order: delete bucket, remove role from
instance profile, delete instance profile, delete role policy, delete
role. Each failing step is handled by
`err.(awserr.RequestFailure).StatusCode() != 404` — an UNCHECKED type
assertion: when the error is not an `awserr.RequestFailure` (no
status-code signal, `statusCode = none` in our model), the assertion
panics and the remaining steps never run. When the assertion holds,
the error is logged unless the status is 404. -/

/-- The injected failure (if any) of each of the five teardown
calls, in source order. -/
structure CleanFaults where
  deleteBucket : Option AwsErr
  removeRoleFromInstanceProfile : Option AwsErr
  deleteInstanceProfile : Option AwsErr
  deleteRolePolicy : Option AwsErr
  deleteRole : Option AwsErr
  deriving DecidableEq, Repr

/-- Result of running `clean`: either a panic partway through (with
the messages logged before it) or completion (with all messages
logged). -/
inductive CleanOutcome where
  | panicked (logged : List String)
  | completed (logged : List String)
  deriving DecidableEq, Repr

/-- One step of `clean`: `none` when the unchecked type assertion on
the step error panics, otherwise the log list extended when the
status is not 404. `msgGoesBefore` is the formatted message up to the
error text (log.Printf of the pattern and the entity name). -/
def cleanStep (fault : Option AwsErr) (msgGoesBefore : String)
    (logged : List String) : Option (List String) :=
  match fault with
  | none => some logged
  | some e =>
    match e.statusCode with
    | none => none
    | some code =>
      if code ≠ 404 then some (logged ++ [msgGoesBefore ++ e.text])
      else some logged

/-- The `clean` function: the five steps in source order. Note the
fourth message reads "unable to delete role" in the source even
though the step deletes the role policy. -/
def clean (roleName bucketName : String) (faults : CleanFaults) :
    CleanOutcome :=
  match cleanStep faults.deleteBucket
      ("unable to delete bucket " ++ bucketName ++ ": ") [] with
  | none => .panicked []
  | some l1 =>
    match cleanStep faults.removeRoleFromInstanceProfile
        ("unable to remove role from instance profile " ++ roleName ++ ": ")
        l1 with
    | none => .panicked l1
    | some l2 =>
      match cleanStep faults.deleteInstanceProfile
          ("unable to delete instance profile " ++ roleName ++ ": ") l2 with
      | none => .panicked l2
      | some l3 =>
        match cleanStep faults.deleteRolePolicy
            ("unable to delete role " ++ roleName ++ ": ") l3 with
        | none => .panicked l3
        | some l4 =>
          match cleanStep faults.deleteRole
              ("unable to delete role " ++ roleName ++ ": ") l4 with
          | none => .panicked l4
          | some l5 => .completed l5

/-! ### Claim C8: cleanup error reporting -/

/-- C8 failing input: a transport-level failure of the delete-bucket
step, carrying no HTTP status signal (not an `awserr.RequestFailure`).
The claim — echoed by the doc comment of `clean` itself — says every
non-404 failure is reported and cleanup continues; instead the
unchecked type assertion panics: nothing is logged and the remaining
four teardown steps never run. With status-carrying failures the code
does behave as claimed: a 404 at every step completes silently, and a
non-404 status at every step completes with all five messages
logged. -/
theorem C8_clean_panics_on_statusless_error :
    clean "upspinstorage" "mybucket"
        ⟨some ⟨"connection reset by peer", none⟩,
          some ⟨"x", some 500⟩, none, none, none⟩ =
      .panicked [] ∧
    clean "upspinstorage" "mybucket"
        ⟨some ⟨"nf", some 404⟩, some ⟨"nf", some 404⟩,
          some ⟨"nf", some 404⟩, some ⟨"nf", some 404⟩,
          some ⟨"nf", some 404⟩⟩ =
      .completed [] ∧
    clean "upspinstorage" "mybucket"
        ⟨some ⟨"denied", some 403⟩, some ⟨"denied", some 403⟩,
          some ⟨"denied", some 403⟩, some ⟨"denied", some 403⟩,
          some ⟨"denied", some 403⟩⟩ =
      .completed
        ["unable to delete bucket mybucket: denied",
          "unable to remove role from instance profile upspinstorage: denied",
          "unable to delete instance profile upspinstorage: denied",
          "unable to delete role upspinstorage: denied",
          "unable to delete role upspinstorage: denied"] := by
  refine ⟨rfl, rfl, rfl⟩

end Setupstorage
